import Mathlib

/-!
Shallow embedding of the quality-gate and batch-loader logic of the
retail warehouse repository (Section_A): `validation/check_data_quality.py`
and `src/ingest_gcp.py`, together with the table shapes declared in
`src/run_pipeline.py`.

Timestamps and numeric column values are modelled as `Int` (only equality,
order and NULL-ness of these values are ever inspected by the code under
study); SQL-nullable columns are modelled as `Option`.
-/

namespace Spec2Proof

/-! ## Warehouse data model (from `run_pipeline.py`, `create_dimension_tables`) -/

/-- A row of `gigmart.fact_transactions` (columns as in the CREATE TABLE of
`run_pipeline.py`; every column but `transaction_id` is nullable). -/
structure FactRow where
  transaction_id : String
  customer_sk : Option Int
  product_id : Option String
  transaction_date : Option Int
  quantity : Option Int
  unit_price : Option Int
  total_amount : Option Int
  source_system : Option String
  created_at : Option Int
deriving DecidableEq, Repr

/-- A row of `gigmart.dim_customers` (columns as in the CREATE TABLE of
`run_pipeline.py`; `customer_sk`, `customer_id`, `valid_from` and
`is_current` are NOT NULL). -/
structure DimRow where
  customer_sk : Int
  customer_id : String
  first_name : Option String
  last_name : Option String
  email : Option String
  loyalty_status : Option String
  city : Option String
  country : Option String
  valid_from : Int
  valid_to : Option Int
  is_current : Bool
deriving DecidableEq, Repr

/-- The warehouse state read by the quality gate. -/
structure Warehouse where
  facts : List FactRow
  dims : List DimRow
deriving Repr

/-! ## The four quality-gate queries (from `check_data_quality.py`, `main`) -/

/-- Test 1 query: `SELECT COUNT(*) FROM (SELECT transaction_id, COUNT(*)
FROM fact_transactions GROUP BY transaction_id HAVING COUNT(*) > 1)` —
the number of distinct `transaction_id` values occurring more than once. -/
def uniquenessViolations (facts : List FactRow) : Nat :=
  let ids := facts.map (fun r => r.transaction_id)
  (ids.dedup.filter (fun t => 1 < ids.count t)).length

/-- Test 2 query: `SELECT COUNT(*) FROM fact_transactions f LEFT JOIN
dim_customers d ON f.customer_sk = d.customer_sk WHERE d.customer_sk IS
NULL` — fact rows whose `customer_sk` equals no dimension row's
`customer_sk` (SQL `=` is not satisfied by NULL, so a NULL `customer_sk`
also matches no dimension row). -/
def refIntegrityViolations (facts : List FactRow) (dims : List DimRow) : Nat :=
  (facts.filter (fun f => !(dims.any (fun d => f.customer_sk == some d.customer_sk)))).length

/-- Test 3 query: `SELECT COUNT(*) FROM fact_transactions WHERE
total_amount IS NULL OR created_at IS NULL`. -/
def nullViolations (facts : List FactRow) : Nat :=
  (facts.filter (fun f => f.total_amount.isNone || f.created_at.isNone)).length

/-- Test 4 query: `SELECT COUNT(*) FROM dim_customers WHERE valid_to IS
NOT NULL AND valid_to < valid_from`. -/
def scdViolations (dims : List DimRow) : Nat :=
  (dims.filter (fun d =>
    match d.valid_to with
    | some vt => decide (vt < d.valid_from)
    | none => false)).length

/-! ## `run_test` (from `check_data_quality.py`) -/

/-- The tag `run_test` logs for a check: `[PASS]`, `[FAIL]` (assertion
failed: count differed from the expected value) or `[ERROR]` (the check
could not execute: the query raised, caught by the `except` block). -/
inductive Tag where
  | PASS
  | FAIL
  | ERROR
deriving DecidableEq, Repr

/-- `count = results[0][0] if results else 0`: the observed count, where an
empty result set is treated as count 0 and an empty first row (`none`)
models the unguarded inner index raising `IndexError`. -/
def extractCount (results : List (List Int)) : Option Int :=
  match results with
  | [] => some 0
  | r :: _ => r.head?

/-- `run_test(test_name, query, expected_result)`: the query outcome is
either an exception (`Except.error`) or a list of result rows. Returns the
boolean the Python function returns, paired with the tag it logs. An
`IndexError` from `results[0][0]` is caught by the same `except` block as a
query failure, hence tagged `ERROR`. -/
def run_test (qres : Except String (List (List Int))) (expected : Int) : Bool × Tag :=
  match qres with
  | .error _ => (false, Tag.ERROR)
  | .ok results =>
    match extractCount results with
    | none => (false, Tag.ERROR)
    | some count => if count = expected then (true, Tag.PASS) else (false, Tag.FAIL)

/-- Which of the four checks' queries raise (infrastructure faults of the
external warehouse; `false` everywhere is the fault-free run). -/
structure InfraFaults where
  e1 : Bool
  e2 : Bool
  e3 : Bool
  e4 : Bool
deriving DecidableEq, Repr

/-- Outcome of issuing a counting query: an exception when the fault flag
is set, otherwise a single row holding the count. -/
def queryResult (fault : Bool) (count : Nat) : Except String (List (List Int)) :=
  if fault then Except.error "query failed" else Except.ok [[(count : Int)]]

/-- What `main()` of `check_data_quality.py` produces: the aggregate
boolean it returns, plus each check's `(returned boolean, logged tag)`. -/
structure GateReport where
  passed : Bool
  r1 : Bool × Tag
  r2 : Bool × Tag
  r3 : Bool × Tag
  r4 : Bool × Tag
deriving DecidableEq, Repr

/-- `main()` of `check_data_quality.py`: runs the four checks in order,
each with expected result 0; `all_tests_passed` starts `True` and is set
`False` by any check returning `False`. -/
def gateMain (w : Warehouse) (f : InfraFaults) : GateReport :=
  let r1 := run_test (queryResult f.e1 (uniquenessViolations w.facts)) 0
  let r2 := run_test (queryResult f.e2 (refIntegrityViolations w.facts w.dims)) 0
  let r3 := run_test (queryResult f.e3 (nullViolations w.facts)) 0
  let r4 := run_test (queryResult f.e4 (scdViolations w.dims)) 0
  { passed := r1.1 && r2.1 && r3.1 && r4.1, r1 := r1, r2 := r2, r3 := r3, r4 := r4 }

/-- `sys.exit(0 if result else 1)` in the `__main__` block. -/
def standaloneExitCode (w : Warehouse) (f : InfraFaults) : Nat :=
  if (gateMain w f).passed then 0 else 1

/-- The fault-free run. -/
def noFaults : InfraFaults := ⟨false, false, false, false⟩

/-! ## Batch loader (from `ingest_gcp.py`) -/

/-- `bigquery.SourceFormat` values used by the loaders. -/
inductive SourceFormat where
  | CSV
  | NEWLINE_DELIMITED_JSON
deriving DecidableEq, Repr

/-- `bigquery.SchemaUpdateOption` values used by the loaders. -/
inductive SchemaUpdateOption where
  | ALLOW_FIELD_ADDITION
  | ALLOW_FIELD_RELAXATION
deriving DecidableEq, Repr

/-- `bigquery.WriteDisposition` value used by the loaders. -/
inductive WriteDisposition where
  | WRITE_APPEND
deriving DecidableEq, Repr

/-- A `bigquery.SchemaField(name, type)`. -/
structure SchemaField where
  name : String
  fieldType : String
deriving DecidableEq, Repr

/-- The arguments the loaders pass to `bigquery.LoadJobConfig`. -/
structure LoadJobConfig where
  source_format : SourceFormat
  skip_leading_rows : Nat := 0
  autodetect : Bool := false
  schema : Option (List SchemaField) := none
  schema_update_options : List SchemaUpdateOption := []
  write_disposition : WriteDisposition := WriteDisposition.WRITE_APPEND
  max_bad_records : Nat := 0
  ignore_unknown_values : Bool := false
deriving Repr

/-- The `job_config` built by `load_csv_to_bq`. -/
def csv_job_config : LoadJobConfig :=
  { source_format := SourceFormat.CSV
    skip_leading_rows := 1
    autodetect := true
    schema_update_options :=
      [SchemaUpdateOption.ALLOW_FIELD_ADDITION, SchemaUpdateOption.ALLOW_FIELD_RELAXATION]
    write_disposition := WriteDisposition.WRITE_APPEND
    max_bad_records := 100
    ignore_unknown_values := true }

/-- The explicit schema `load_json_to_bq` pins for `stg_pos_transactions`. -/
def posSchema : List SchemaField :=
  [⟨"transaction_id", "STRING"⟩, ⟨"store_id", "STRING"⟩, ⟨"customer_id", "STRING"⟩,
   ⟨"product_id", "STRING"⟩, ⟨"transaction_date", "DATE"⟩, ⟨"quantity", "INTEGER"⟩,
   ⟨"unit_price", "FLOAT"⟩, ⟨"amount", "FLOAT"⟩, ⟨"event_type", "STRING"⟩,
   ⟨"currency", "STRING"⟩, ⟨"timestamp", "TIMESTAMP"⟩]

/-- The explicit schema `load_json_to_bq` pins for `stg_ecommerce_orders`. -/
def ecommerceSchema : List SchemaField :=
  [⟨"order_id", "STRING"⟩, ⟨"customer_id", "STRING"⟩, ⟨"product_id", "STRING"⟩,
   ⟨"order_date", "DATE"⟩, ⟨"quantity", "INTEGER"⟩, ⟨"unit_price", "FLOAT"⟩,
   ⟨"store_id", "STRING"⟩, ⟨"total_amount", "FLOAT"⟩, ⟨"payment_type", "STRING"⟩,
   ⟨"timestamp", "TIMESTAMP"⟩]

/-- The `schema` variable of `load_json_to_bq`: pinned for the two known
tables, `None` otherwise. -/
def jsonSchemaFor (table_name : String) : Option (List SchemaField) :=
  if table_name = "stg_pos_transactions" then some posSchema
  else if table_name = "stg_ecommerce_orders" then some ecommerceSchema
  else none

/-- The `job_config` built by `load_json_to_bq` for a given table. -/
def json_job_config (table_name : String) : LoadJobConfig :=
  let schema := jsonSchemaFor table_name
  { source_format := SourceFormat.NEWLINE_DELIMITED_JSON
    schema := schema
    autodetect := schema.isNone
    schema_update_options :=
      if schema.isSome then [SchemaUpdateOption.ALLOW_FIELD_ADDITION] else []
    write_disposition := WriteDisposition.WRITE_APPEND
    max_bad_records := 100
    ignore_unknown_values := true }

/-- Model of the external warehouse's documented schema handling for a load
job, by column name: the job's load schema is the pinned `schema` if given,
else the file's columns when `autodetect` is on, else the destination
table's columns. File columns outside the load schema fail the job unless
`ignore_unknown_values` is set (then they are dropped). Load-schema columns
missing from the destination table fail the job unless
`ALLOW_FIELD_ADDITION` is among the `schema_update_options` (then the table
gains them). Destination columns absent from the file are filled with
NULLs. Returns the destination table's columns after the load, or `none`
when the job is rejected. -/
def bqLoadCols (cfg : LoadJobConfig) (tableCols fileCols : List String) : Option (List String) :=
  let loadCols : List String :=
    match cfg.schema with
    | some s => s.map (fun fld => fld.name)
    | none => if cfg.autodetect then fileCols else tableCols
  if !cfg.ignore_unknown_values && fileCols.any (fun c => !(loadCols.contains c)) then
    none
  else if (loadCols.any (fun c => !(tableCols.contains c)))
      && !(cfg.schema_update_options.contains SchemaUpdateOption.ALLOW_FIELD_ADDITION) then
    none
  else
    some (tableCols ++ loadCols.filter (fun c => !(tableCols.contains c)))

/-- One malformed input record, as an entry of `load_job.errors`: its error
kind and the offending value. -/
structure BadRecord where
  kind : String
  value : String
deriving DecidableEq, Repr

/-- The environment of one load call: whether the warehouse call raises for
non-data reasons, the malformed records in the file, the rows the job
loads, and the rows already in the destination table (under
`WRITE_APPEND`, the table holds `priorRows + loadedRows` rows afterwards,
which is what `table.num_rows` reports). -/
structure LoadOutcome where
  infraError : Bool
  badRecords : List BadRecord
  loadedRows : Nat
  priorRows : Nat
deriving DecidableEq, Repr

/-- Model of the external warehouse's documented `max_bad_records`
contract: the load job succeeds iff there is no infrastructure error and
the number of malformed records does not exceed `max_bad_records`; on
success `load_job.errors` holds the malformed-record entries. -/
def jobErrors (cfg : LoadJobConfig) (o : LoadOutcome) : Except String (List BadRecord) :=
  if o.infraError then Except.error "load job failed"
  else if cfg.max_bad_records < o.badRecords.length then Except.error "too many bad records"
  else Except.ok o.badRecords

/-- What one loader call logs and returns. `success` is whether the `try`
body ran to completion; `errorCountLogged` is the `Bad records in {t}:
{len} errors` count (logged only when `load_job.errors` is non-empty);
`detailedErrorsLogged` is the `errors[:5]` slice logged one by one;
`zeroRowsWarning` is the `table.num_rows == 0` warning; `failureLogged` is
the `except` block's `Failed to load` message. -/
structure LoaderReport where
  success : Bool
  errorCountLogged : Option Nat
  detailedErrorsLogged : List BadRecord
  zeroRowsWarning : Bool
  failureLogged : Option String
deriving DecidableEq, Repr

/-- The `try` body shared by `load_csv_to_bq` and `load_json_to_bq`:
submit the job, wait for it, re-read the table, log bad records (count,
then first five in detail) and the zero-rows warning. -/
def loadTryBody (cfg : LoadJobConfig) (o : LoadOutcome) : Except String LoaderReport :=
  match jobErrors cfg o with
  | .error e => Except.error e
  | .ok errs =>
    Except.ok
      { success := true
        errorCountLogged := if errs.isEmpty then none else some errs.length
        detailedErrorsLogged := errs.take 5
        zeroRowsWarning := o.priorRows + o.loadedRows == 0
        failureLogged := none }

/-- The `except Exception` clause shared by both loaders: log
`Failed to load {table_name}: {e}` and return normally. -/
def loadCatch (body : Except String LoaderReport) : LoaderReport :=
  match body with
  | .ok r => r
  | .error e =>
    { success := false
      errorCountLogged := none
      detailedErrorsLogged := []
      zeroRowsWarning := false
      failureLogged := some e }

/-- `load_csv_to_bq(gcs_uri, table_name)` as a function of the load call's
environment. -/
def load_csv_to_bq (o : LoadOutcome) : LoaderReport :=
  loadCatch (loadTryBody csv_job_config o)

/-- `load_json_to_bq(gcs_uri, table_name)` as a function of the target
table and the load call's environment. -/
def load_json_to_bq (table_name : String) (o : LoadOutcome) : LoaderReport :=
  loadCatch (loadTryBody (json_job_config table_name) o)

/-! ## `main()` ingestion loop (from `ingest_gcp.py`) -/

/-- Python's `str.endswith`, on the underlying character lists. -/
def endswith (fn ext : String) : Bool := ext.data.isSuffixOf fn.data

/-- Which loader an `ingestion_map` entry dispatches to. -/
inductive LoaderKind where
  | csvLoader
  | jsonLoader
deriving DecidableEq, Repr

/-- One entry of `ingestion_map`: source folder, staging table, loader. -/
structure IngestEntry where
  src : String
  table : String
  kind : LoaderKind
deriving DecidableEq, Repr

/-- `ingestion_map`, in the dict's insertion order. -/
def ingestion_map : List IngestEntry :=
  [⟨"crm", "stg_crm_customers", LoaderKind.csvLoader⟩,
   ⟨"erp", "stg_erp_inventory", LoaderKind.csvLoader⟩,
   ⟨"ecommerce", "stg_ecommerce_orders", LoaderKind.jsonLoader⟩,
   ⟨"pos", "stg_pos_transactions", LoaderKind.jsonLoader⟩]

/-- Dispatch through the `ingestion_map` entry's loader function. -/
def runLoader (kind : LoaderKind) (table : String) (o : LoadOutcome) : LoaderReport :=
  match kind with
  | LoaderKind.csvLoader => load_csv_to_bq o
  | LoaderKind.jsonLoader => load_json_to_bq table o

/-- The body of `main()`'s loop for one `ingestion_map` entry: skip the
source when its directory is missing; for each file, upload it, and when
the upload succeeded and the name ends in `.csv` or `.json`, call the
loader. `dirs` gives a source folder's file listing (or `none` when the
directory does not exist), `uploadOk` whether `upload_to_gcs` returned a
URI, and `outs` each file's load environment. Yields the
`(table, filename)` pairs a loader was called on, with the loader's
report. -/
def sourceRun (dirs : String → Option (List String)) (uploadOk : String → String → Bool)
    (outs : String → String → LoadOutcome) (e : IngestEntry) :
    List ((String × String) × LoaderReport) :=
  match dirs e.src with
  | none => []
  | some files =>
    files.filterMap (fun fn =>
      if uploadOk e.src fn then
        if endswith fn ".csv" || endswith fn ".json" then
          some ((e.table, fn), runLoader e.kind e.table (outs e.src fn))
        else none
      else none)

/-- `main()`'s loop over the `ingestion_map` entries. -/
def runSources (dirs : String → Option (List String)) (uploadOk : String → String → Bool)
    (outs : String → String → LoadOutcome) :
    List IngestEntry → List ((String × String) × LoaderReport)
  | [] => []
  | e :: es => sourceRun dirs uploadOk outs e ++ runSources dirs uploadOk outs es

/-- `main()` of `ingest_gcp.py`: every loader call it makes, in order. -/
def ingestMain (dirs : String → Option (List String)) (uploadOk : String → String → Bool)
    (outs : String → String → LoadOutcome) : List ((String × String) × LoaderReport) :=
  runSources dirs uploadOk outs ingestion_map

/-- A load environment with nothing notable in it. -/
def defaultOutcome : LoadOutcome := ⟨false, [], 0, 0⟩

/-- The `(staging table, filename)` pairs `main()` stages. -/
def stagedFiles (dirs : String → Option (List String))
    (uploadOk : String → String → Bool) : List (String × String) :=
  (ingestMain dirs uploadOk (fun _ _ => defaultOutcome)).map Prod.fst

/-! ## Helper lemmas about the quality gate -/

/-- `run_test` returns `True` exactly when it logs `[PASS]`. -/
theorem run_test_fst_iff (q : Except String (List (List Int))) (e : Int) :
    (run_test q e).1 = true ↔ (run_test q e).2 = Tag.PASS := by
  unfold run_test
  cases q with
  | error s => simp
  | ok results =>
    cases results with
    | nil => by_cases h : (0 : Int) = e <;> simp [extractCount, h]
    | cons r rest =>
      cases hr : r.head? with
      | none => simp [extractCount, hr]
      | some c => by_cases h : c = e <;> simp [extractCount, hr, h]

/-- A raising query makes `run_test` return `False` with tag `[ERROR]`. -/
theorem run_test_error (s : String) (e : Int) :
    run_test (Except.error s) e = (false, Tag.ERROR) := rfl

/-- On a fault-free counting query with expected result 0, `run_test` logs
`[PASS]` exactly when the count is 0. -/
theorem run_test_count_zero (n : Nat) :
    (run_test (queryResult false n) 0).2 = Tag.PASS ↔ n = 0 := by
  by_cases h : n = 0 <;>
    simp [run_test, queryResult, extractCount, Int.natCast_eq_zero, h]

/-- The uniqueness-check count is 0 exactly when no `transaction_id`
occurs more than once in the fact table. -/
theorem uniquenessViolations_eq_zero (facts : List FactRow) :
    uniquenessViolations facts = 0 ↔
      ∀ t, (facts.map (fun r => r.transaction_id)).count t ≤ 1 := by
  simp only [uniquenessViolations]
  rw [List.length_eq_zero, List.filter_eq_nil_iff]
  constructor
  · intro h t
    by_contra hc
    push_neg at hc
    have ht : t ∈ facts.map (fun r => r.transaction_id) :=
      List.count_pos_iff.mp (by omega)
    have h2 := h t (List.mem_dedup.mpr ht)
    simp at h2
    omega
  · intro h t _
    simp
    exact h t

/-! ## Claim theorems for the quality gate -/

/-- The `tx_9` fact row of spec Scenario D: written with the sentinel
`customer_sk = -1` because no dimension row exists for its customer. -/
def tx9 : FactRow :=
  { transaction_id := "tx_9"
    customer_sk := some (-1)
    product_id := none
    transaction_date := none
    quantity := none
    unit_price := none
    total_amount := some 100
    source_system := none
    created_at := some 0 }

/-- C1: evaluation of the code at the failing input. With the fact table
holding exactly the sentinel row `tx_9` (`customer_sk = -1`) and no
dimension rows, the referential-integrity query counts the sentinel row as
a violation, the check logs `[FAIL]` (not a separate tracked count), and
that single sentinel row by itself makes the aggregate gate fail —
contradicting the claim that `-1` is excluded or tracked separately and
does not by itself fail the check. -/
theorem c1_sentinel_counted_as_violation :
    refIntegrityViolations [tx9] [] = 1 ∧
    (gateMain ⟨[tx9], []⟩ noFaults).r2 = (false, Tag.FAIL) ∧
    (gateMain ⟨[tx9], []⟩ noFaults).passed = false := by
  decide

/-- C2: the aggregate result of the quality gate is a pass exactly when
all four checks log `[PASS]` (so any failed or errored check fails the
aggregate); a check whose query raises logs `[ERROR]`, which is distinct
from the failed-assertion tag `[FAIL]`, and forces the aggregate to fail. -/
theorem c2_aggregate_and_error_distinct (w : Warehouse) (f : InfraFaults) :
    ((gateMain w f).passed = true ↔
      ((gateMain w f).r1.2 = Tag.PASS ∧ (gateMain w f).r2.2 = Tag.PASS ∧
       (gateMain w f).r3.2 = Tag.PASS ∧ (gateMain w f).r4.2 = Tag.PASS)) ∧
    (gateMain w { f with e1 := true }).r1.2 = Tag.ERROR ∧
    (gateMain w { f with e2 := true }).r2.2 = Tag.ERROR ∧
    (gateMain w { f with e3 := true }).r3.2 = Tag.ERROR ∧
    (gateMain w { f with e4 := true }).r4.2 = Tag.ERROR ∧
    (gateMain w { f with e1 := true }).passed = false ∧
    (gateMain w { f with e2 := true }).passed = false ∧
    (gateMain w { f with e3 := true }).passed = false ∧
    (gateMain w { f with e4 := true }).passed = false ∧
    Tag.ERROR ≠ Tag.FAIL := by
  refine ⟨?_, ?_, ?_, ?_, ?_, ?_, ?_, ?_, ?_, by decide⟩
  · have h1 := run_test_fst_iff (queryResult f.e1 (uniquenessViolations w.facts)) 0
    have h2 := run_test_fst_iff (queryResult f.e2 (refIntegrityViolations w.facts w.dims)) 0
    have h3 := run_test_fst_iff (queryResult f.e3 (nullViolations w.facts)) 0
    have h4 := run_test_fst_iff (queryResult f.e4 (scdViolations w.dims)) 0
    simp only [gateMain, Bool.and_eq_true]
    rw [h1, h2, h3, h4]
    tauto
  all_goals simp [gateMain, queryResult, run_test_error]

/-- C7: the uniqueness check (Test 1, run fault-free) logs `[PASS]` exactly
when no `transaction_id` appears more than once in the fact table. -/
theorem c7_uniqueness_check_iff (w : Warehouse) :
    (gateMain w noFaults).r1.2 = Tag.PASS ↔
      ∀ t, (w.facts.map (fun r => r.transaction_id)).count t ≤ 1 := by
  have h : (gateMain w noFaults).r1 =
      run_test (queryResult false (uniquenessViolations w.facts)) 0 := rfl
  rw [h, run_test_count_zero, uniquenessViolations_eq_zero]

/-- C8: run standalone, the gate's process exits with code 0 exactly when
the aggregate result is a pass, and with code 1 exactly when it is a
fail. -/
theorem c8_exit_code (w : Warehouse) (f : InfraFaults) :
    (standaloneExitCode w f = 0 ↔ (gateMain w f).passed = true) ∧
    (standaloneExitCode w f = 1 ↔ (gateMain w f).passed = false) := by
  unfold standaloneExitCode
  cases h : (gateMain w f).passed <;> simp [h]

/-- C10: on an empty result set `run_test` treats the count as 0, hence
returns `True` with `[PASS]` exactly when the expected result is 0; and on
every input it returns one of the three `(boolean, tag)` outcomes — it is
total, never propagating an exception. -/
theorem c10_run_test_empty_results :
    (∀ e : Int, run_test (Except.ok []) e =
      if (0 : Int) = e then (true, Tag.PASS) else (false, Tag.FAIL)) ∧
    (∀ (q : Except String (List (List Int))) (e : Int),
      run_test q e = (true, Tag.PASS) ∨ run_test q e = (false, Tag.FAIL) ∨
      run_test q e = (false, Tag.ERROR)) := by
  constructor
  · intro e
    rfl
  · intro q e
    unfold run_test
    cases q with
    | error s => right; right; rfl
    | ok results =>
      cases hr : extractCount results with
      | none => right; right; simp [hr]
      | some c =>
        by_cases h : c = e
        · left; simp [hr, h]
        · right; left; simp [hr, h]

/-! ## Helper lemmas about the loaders -/

/-- Both loaders' configs set `max_bad_records=100`. -/
theorem max_bad_records_csv : csv_job_config.max_bad_records = 100 := rfl

/-- `load_json_to_bq` sets `max_bad_records=100` for every table. -/
theorem max_bad_records_json (t : String) : (json_job_config t).max_bad_records = 100 := rfl

/-- The `schema` variable for the POS staging table. -/
theorem jsonSchemaFor_pos : jsonSchemaFor "stg_pos_transactions" = some posSchema := by decide

/-- The `schema` variable for the e-commerce staging table. -/
theorem jsonSchemaFor_ecommerce :
    jsonSchemaFor "stg_ecommerce_orders" = some ecommerceSchema := by decide

/-- A completed `try` body always reports success. -/
theorem loadTryBody_ok_success (cfg : LoadJobConfig) (o : LoadOutcome) (r : LoaderReport)
    (h : loadTryBody cfg o = Except.ok r) : r.success = true := by
  unfold loadTryBody at h
  cases hj : jobErrors cfg o with
  | error e => rw [hj] at h; cases h
  | ok errs =>
    rw [hj] at h
    simp only [Except.ok.injEq] at h
    rw [← h]

/-- The staged `(table, filename)` pairs produced by the per-file loop do
not depend on what the loader reports for each file. -/
theorem mapFst_filterMap_indep (tbl : String) (files : List String) (p q : String → Bool)
    (rep rep' : String → LoaderReport) :
    (files.filterMap
      (fun x => if p x then if q x then some ((tbl, x), rep x) else none else none)).map
        Prod.fst =
    (files.filterMap
      (fun x => if p x then if q x then some ((tbl, x), rep' x) else none else none)).map
        Prod.fst := by
  induction files with
  | nil => rfl
  | cons a l ih =>
    simp only [List.filterMap_cons]
    by_cases hp : p a = true
    · by_cases hq : q a = true
      · rw [if_pos hp, if_pos hp, if_pos hq, if_pos hq]
        simp only [List.map_cons, ih]
      · rw [if_pos hp, if_pos hp, if_neg hq, if_neg hq]
        exact ih
    · rw [if_neg hp, if_neg hp]
      exact ih

/-- The first projection of one source's loop output does not depend on
the per-file load environments: which files get staged is independent of
the loads' outcomes. -/
theorem mapFst_sourceRun (dirs : String → Option (List String))
    (uploadOk : String → String → Bool) (outs outs' : String → String → LoadOutcome)
    (e : IngestEntry) :
    (sourceRun dirs uploadOk outs e).map Prod.fst =
      (sourceRun dirs uploadOk outs' e).map Prod.fst := by
  unfold sourceRun
  cases dirs e.src with
  | none => rfl
  | some files =>
    exact mapFst_filterMap_indep e.table files
      (fun x => uploadOk e.src x)
      (fun x => endswith x ".csv" || endswith x ".json")
      (fun x => runLoader e.kind e.table (outs e.src x))
      (fun x => runLoader e.kind e.table (outs' e.src x))

/-- Same fact for the whole loop over a list of `ingestion_map` entries. -/
theorem mapFst_runSources (dirs : String → Option (List String))
    (uploadOk : String → String → Bool) (outs outs' : String → String → LoadOutcome)
    (es : List IngestEntry) :
    (runSources dirs uploadOk outs es).map Prod.fst =
      (runSources dirs uploadOk outs' es).map Prod.fst := by
  induction es with
  | nil => rfl
  | cons e es ih =>
    simp only [runSources, List.map_append, ih,
      mapFst_sourceRun dirs uploadOk outs outs' e]

/-- If `fn` is in the file list, uploads fine and has a staged extension,
its `(table, fn)` pair is among the staged pairs of the per-file loop. -/
theorem mem_mapFst_filterMap (tbl : String) (files : List String)
    (p q : String → Bool) (rep : String → LoaderReport) (fn : String)
    (hf : fn ∈ files) (hp : p fn = true) (hq : q fn = true) :
    (tbl, fn) ∈ (files.filterMap
      (fun x => if p x then if q x then some ((tbl, x), rep x) else none else none)).map
        Prod.fst := by
  induction files with
  | nil => cases hf
  | cons a l ih =>
    simp only [List.filterMap_cons]
    rcases List.mem_cons.mp hf with h | h
    · subst h
      simp [hp, hq]
    · have hm := ih h
      by_cases hpa : p a = true
      · by_cases hqa : q a = true
        · simp only [hpa, hqa, if_pos, List.map_cons, List.mem_cons]
          exact Or.inr hm
        · simp only [hpa, hqa, if_pos, if_neg]
          simpa using hm
      · simp only [hpa, if_neg]
        simpa using hm

/-- Membership version over a list of `ingestion_map` entries. -/
theorem mem_mapFst_runSources (dirs : String → Option (List String))
    (uploadOk : String → String → Bool) (outs : String → String → LoadOutcome)
    (e : IngestEntry) (fn : String) (es : List IngestEntry)
    (he : e ∈ es) (hf : fn ∈ (dirs e.src).getD [])
    (hu : uploadOk e.src fn = true)
    (hx : (endswith fn ".csv" || endswith fn ".json") = true) :
    (e.table, fn) ∈ (runSources dirs uploadOk outs es).map Prod.fst := by
  induction es with
  | nil => cases he
  | cons a l ih =>
    simp only [runSources, List.map_append, List.mem_append]
    rcases List.mem_cons.mp he with h | h
    · subst h
      left
      unfold sourceRun
      cases hd : dirs e.src with
      | none => rw [hd] at hf; cases hf
      | some files =>
        rw [hd] at hf
        simp only [Option.getD_some] at hf
        exact mem_mapFst_filterMap e.table files
          (fun x => uploadOk e.src x)
          (fun x => endswith x ".csv" || endswith x ".json")
          (fun x => runLoader e.kind e.table (outs e.src x)) fn hf hu hx
    · right
      exact ih h

/-! ## Claim theorems for the batch loader -/

/-- A file with six malformed records (below the 100 threshold). -/
def badSix : List BadRecord :=
  [⟨"invalid", "row1"⟩, ⟨"invalid", "row2"⟩, ⟨"invalid", "row3"⟩,
   ⟨"invalid", "row4"⟩, ⟨"invalid", "row5"⟩, ⟨"invalid", "row6"⟩]

/-- A fault-free load of a file with six malformed records. -/
def outcomeSixBad : LoadOutcome := ⟨false, badSix, 10, 10⟩

/-- C3 counterexample: with six malformed records the load succeeds
(below the threshold), but only the first five are reported in detail —
the sixth skipped record's kind and offending value are never logged, so
not every skipped record is reported. -/
theorem c3_counterexample_sixth_unreported :
    (load_csv_to_bq outcomeSixBad).success = true ∧
    outcomeSixBad.badRecords.length = 6 ∧
    (load_csv_to_bq outcomeSixBad).detailedErrorsLogged.length = 5 ∧
    (⟨"invalid", "row6"⟩ : BadRecord) ∈ outcomeSixBad.badRecords ∧
    (⟨"invalid", "row6"⟩ : BadRecord) ∉ (load_csv_to_bq outcomeSixBad).detailedErrorsLogged := by
  decide

/-- C3 amended: on a load with no infrastructure error, at most 100
malformed records (the `max_bad_records` setting of both loaders) may be
skipped without failing the load and the load fails once that threshold is
exceeded; the skipped records are reported as a total count plus the kind
and offending value of at most the first five. -/
theorem c3_amended_bounded_bad_records (bad : List BadRecord) (lr pr : Nat) :
    ((load_csv_to_bq ⟨false, bad, lr, pr⟩).success = true ↔ bad.length ≤ 100) ∧
    ((load_json_to_bq "stg_pos_transactions" ⟨false, bad, lr, pr⟩).success = true ↔
      bad.length ≤ 100) ∧
    ((load_json_to_bq "stg_ecommerce_orders" ⟨false, bad, lr, pr⟩).success = true ↔
      bad.length ≤ 100) ∧
    ((load_csv_to_bq ⟨false, bad, lr, pr⟩).detailedErrorsLogged =
      if bad.length ≤ 100 then bad.take 5 else []) ∧
    ((load_csv_to_bq ⟨false, bad, lr, pr⟩).errorCountLogged =
      if bad.length ≤ 100 then (if bad.isEmpty then none else some bad.length) else none) := by
  by_cases h : bad.length ≤ 100
  · have h2 : ¬(100 < bad.length) := by omega
    simp [load_csv_to_bq, load_json_to_bq, loadCatch, loadTryBody, jobErrors,
      max_bad_records_csv, max_bad_records_json, h, h2]
  · have h2 : 100 < bad.length := by omega
    simp [load_csv_to_bq, load_json_to_bq, loadCatch, loadTryBody, jobErrors,
      max_bad_records_csv, max_bad_records_json, h, h2]

/-- C4: each loader absorbs its own failures — every call either reports
success or reports failure with the `Failed to load` message logged, never
propagating an exception — and the set of `(table, filename)` pairs the
ingestion loop processes is the same whatever each individual load's
outcome is, so one file's load failure aborts no other file or source. -/
theorem c4_per_file_failure_isolation :
    (∀ o : LoadOutcome, (load_csv_to_bq o).success = true ∨
      ((load_csv_to_bq o).success = false ∧
        ((load_csv_to_bq o).failureLogged).isSome = true)) ∧
    (∀ (t : String) (o : LoadOutcome), (load_json_to_bq t o).success = true ∨
      ((load_json_to_bq t o).success = false ∧
        ((load_json_to_bq t o).failureLogged).isSome = true)) ∧
    (∀ (dirs : String → Option (List String)) (uploadOk : String → String → Bool)
      (outs outs' : String → String → LoadOutcome),
      (ingestMain dirs uploadOk outs).map Prod.fst =
        (ingestMain dirs uploadOk outs').map Prod.fst) := by
  refine ⟨?_, ?_, ?_⟩
  · intro o
    unfold load_csv_to_bq
    cases hb : loadTryBody csv_job_config o with
    | ok r =>
      left
      exact loadTryBody_ok_success csv_job_config o r hb
    | error e =>
      right
      exact ⟨rfl, rfl⟩
  · intro t o
    unfold load_json_to_bq
    cases hb : loadTryBody (json_job_config t) o with
    | ok r =>
      left
      exact loadTryBody_ok_success (json_job_config t) o r hb
    | error e =>
      right
      exact ⟨rfl, rfl⟩
  · intro dirs uploadOk outs outs'
    exact mapFst_runSources dirs uploadOk outs outs' ingestion_map

/-- C5 counterexample: an NDJSON load into `stg_pos_transactions` of a
file carrying the extra column `loyalty_tier` succeeds, but the table's
columns are unchanged — the pinned explicit schema plus
`ignore_unknown_values=True` drops the extra column instead of adding it,
so the table does not gain the column. -/
theorem c5_counterexample_json_no_widening :
    bqLoadCols (json_job_config "stg_pos_transactions")
        (posSchema.map (fun f => f.name))
        (posSchema.map (fun f => f.name) ++ ["loyalty_tier"]) =
      some (posSchema.map (fun f => f.name)) ∧
    "loyalty_tier" ∉ posSchema.map (fun f => f.name) := by
  decide

/-- C5 amended: a CSV load (autodetect plus `ALLOW_FIELD_ADDITION`)
succeeds for every file and the table gains exactly the file's new
columns, so an extra column widens the table and a missing column loads as
nulls rather than failing; an NDJSON load to the POS or e-commerce staging
table also succeeds for every file, but its resulting columns are the
table's plus the pinned schema's, independent of the file's columns — an
extra file column is silently dropped (`ignore_unknown_values`), never
added to the table. -/
theorem c5_amended_schema_widening (tableCols fileCols : List String) :
    bqLoadCols csv_job_config tableCols fileCols =
      some (tableCols ++ fileCols.filter (fun c => !(tableCols.contains c))) ∧
    bqLoadCols (json_job_config "stg_pos_transactions") tableCols fileCols =
      some (tableCols ++
        (posSchema.map (fun f => f.name)).filter (fun c => !(tableCols.contains c))) ∧
    bqLoadCols (json_job_config "stg_ecommerce_orders") tableCols fileCols =
      some (tableCols ++
        (ecommerceSchema.map (fun f => f.name)).filter (fun c => !(tableCols.contains c))) := by
  refine ⟨?_, ?_, ?_⟩
  · simp [bqLoadCols, csv_job_config]
  · simp [bqLoadCols, json_job_config, jsonSchemaFor_pos]
  · simp [bqLoadCols, json_job_config, jsonSchemaFor_ecommerce]

/-- A fault-free, error-free load job that loads zero rows into a table
already holding five rows. -/
def zeroAppendOutcome : LoadOutcome := ⟨false, [], 0, 5⟩

/-- C6 counterexample: a load that loads zero rows into a non-empty table
completes successfully but emits no zero-rows warning — the code tests the
table's total row count (`table.num_rows == 0`) rather than the number of
rows this job loaded. -/
theorem c6_counterexample_no_warning :
    zeroAppendOutcome.loadedRows = 0 ∧
    (load_csv_to_bq zeroAppendOutcome).success = true ∧
    (load_csv_to_bq zeroAppendOutcome).failureLogged = none ∧
    (load_csv_to_bq zeroAppendOutcome).zeroRowsWarning = false := by
  decide

/-- C6 amended: a zero-rows-loaded result is not an error — any load with
no infrastructure error and at most 100 malformed records completes
successfully whatever the loaded-row count — and the warning is surfaced
exactly when the destination table is empty after the load (total row
count zero), which in particular covers every zero-row load into an empty
table. -/
theorem c6_amended_zero_rows_warning (bad : List BadRecord) (lr pr : Nat)
    (h : bad.length ≤ 100) :
    ((load_csv_to_bq ⟨false, bad, lr, pr⟩).success = true ∧
      ((load_csv_to_bq ⟨false, bad, lr, pr⟩).zeroRowsWarning = true ↔ pr + lr = 0)) ∧
    ((load_json_to_bq "stg_pos_transactions" ⟨false, bad, lr, pr⟩).success = true ∧
      ((load_json_to_bq "stg_pos_transactions" ⟨false, bad, lr, pr⟩).zeroRowsWarning = true ↔
        pr + lr = 0)) ∧
    ((load_json_to_bq "stg_ecommerce_orders" ⟨false, bad, lr, pr⟩).success = true ∧
      ((load_json_to_bq "stg_ecommerce_orders" ⟨false, bad, lr, pr⟩).zeroRowsWarning = true ↔
        pr + lr = 0)) := by
  have h2 : ¬(100 < bad.length) := by omega
  simp [load_csv_to_bq, load_json_to_bq, loadCatch, loadTryBody, jobErrors,
    max_bad_records_csv, max_bad_records_json, h2]

/-- C6 witness: the amended statement applied to a zero-row, zero-bad-record
load into an empty table. -/
theorem c6_amended_zero_rows_warning_witness :
    ([] : List BadRecord).length ≤ 100 ∧
    (((load_csv_to_bq ⟨false, [], 0, 0⟩).success = true ∧
      ((load_csv_to_bq ⟨false, [], 0, 0⟩).zeroRowsWarning = true ↔ 0 + 0 = 0)) ∧
    ((load_json_to_bq "stg_pos_transactions" ⟨false, [], 0, 0⟩).success = true ∧
      ((load_json_to_bq "stg_pos_transactions" ⟨false, [], 0, 0⟩).zeroRowsWarning = true ↔
        0 + 0 = 0)) ∧
    ((load_json_to_bq "stg_ecommerce_orders" ⟨false, [], 0, 0⟩).success = true ∧
      ((load_json_to_bq "stg_ecommerce_orders" ⟨false, [], 0, 0⟩).zeroRowsWarning = true ↔
        0 + 0 = 0))) :=
  ⟨by decide, c6_amended_zero_rows_warning [] 0 0 (by decide)⟩

/-- A landing area where the CRM folder holds a single file that is
neither `.csv` nor `.json`. -/
def crmWithTxt : String → Option (List String) :=
  fun s => if s = "crm" then some ["notes.txt"] else none

/-- C9 counterexample: the file `notes.txt` is present in the CRM source's
landing folder and its upload succeeds, yet the ingestion loop stages
nothing — a present file whose name does not end in `.csv` or `.json` is
never staged, so not every file present in a source's landing location is
staged. -/
theorem c9_counterexample_txt_not_staged :
    "notes.txt" ∈ (crmWithTxt "crm").getD [] ∧
    stagedFiles crmWithTxt (fun _ _ => true) = [] := by
  decide

/-- C9 amended: for each configured source, every file in its landing
folder whose upload to the object store succeeds and whose name ends in
`.csv` or `.json` is staged into that source's staging table by the main
ingestion loop. -/
theorem c9_amended_eligible_files_staged (dirs : String → Option (List String))
    (uploadOk : String → String → Bool) (e : IngestEntry) (fn : String)
    (he : e ∈ ingestion_map) (hf : fn ∈ (dirs e.src).getD [])
    (hu : uploadOk e.src fn = true)
    (hx : (endswith fn ".csv" || endswith fn ".json") = true) :
    (e.table, fn) ∈ stagedFiles dirs uploadOk := by
  unfold stagedFiles ingestMain
  exact mem_mapFst_runSources dirs uploadOk (fun _ _ => defaultOutcome) e fn
    ingestion_map he hf hu hx

/-- A landing area where the CRM folder holds a single CSV file. -/
def crmWithCsv : String → Option (List String) :=
  fun s => if s = "crm" then some ["customers.csv"] else none

/-- C9 witness: the amended statement applied to a CSV file in the CRM
landing folder whose upload succeeds. -/
theorem c9_amended_eligible_files_staged_witness :
    (⟨"crm", "stg_crm_customers", LoaderKind.csvLoader⟩ : IngestEntry) ∈ ingestion_map ∧
    "customers.csv" ∈ (crmWithCsv "crm").getD [] ∧
    (fun (_ : String) (_ : String) => true) "crm" "customers.csv" = true ∧
    (endswith "customers.csv" ".csv" || endswith "customers.csv" ".json") = true ∧
    ("stg_crm_customers", "customers.csv") ∈ stagedFiles crmWithCsv (fun _ _ => true) :=
  ⟨by decide, by decide, rfl, by decide,
    c9_amended_eligible_files_staged crmWithCsv (fun _ _ => true)
      ⟨"crm", "stg_crm_customers", LoaderKind.csvLoader⟩ "customers.csv"
      (by decide) (by decide) rfl (by decide)⟩

end Spec2Proof
